import Mathlib

/-!
Shallow embedding of `src/c_wrapper/event.cpp` (pyopencl event wrapper core):
the one-shot finalize guard (`event_private`), the event handle lifecycle
(`event` constructor, `wait`, `release_private`, destructor), the nanny event
(`nanny_event_private`, `nanny_event`), the info/profiling queries, and the
C-boundary wrappers (`event__set_callback`, `wait_for_events`).

External collaborators (the OpenCL driver calls, the foreign refcount
primitives `py::ref`/`py::deref`) are modelled as oracle parameters or as
explicit counters in the state, so that the control flow written in
`event.cpp` is the only thing the definitions encode.
-/

namespace PyOpenCL

/-- OpenCL status code CL_SUCCESS. -/
def CL_SUCCESS : Int := 0

/-- OpenCL status code CL_INVALID_VALUE, thrown by the info queries on an
unrecognized field enum. -/
def CL_INVALID_VALUE : Int := -30

/-- OpenCL execution status CL_COMPLETE, the trigger status used by
`release_private` when registering its completion callback. -/
def CL_COMPLETE : Int := 0

/-- Event info enum CL_EVENT_COMMAND_QUEUE. -/
def CL_EVENT_COMMAND_QUEUE : Nat := 0x11D0

/-- Event info enum CL_EVENT_COMMAND_TYPE. -/
def CL_EVENT_COMMAND_TYPE : Nat := 0x11D1

/-- Event info enum CL_EVENT_REFERENCE_COUNT. -/
def CL_EVENT_REFERENCE_COUNT : Nat := 0x11D2

/-- Event info enum CL_EVENT_COMMAND_EXECUTION_STATUS. -/
def CL_EVENT_COMMAND_EXECUTION_STATUS : Nat := 0x11D3

/-- Event info enum CL_EVENT_CONTEXT (only present when the wrapper is built
against OpenCL 1.1 or newer). -/
def CL_EVENT_CONTEXT : Nat := 0x11D4

/-- Profiling info enum CL_PROFILING_COMMAND_QUEUED. -/
def CL_PROFILING_COMMAND_QUEUED : Nat := 0x1280

/-- Profiling info enum CL_PROFILING_COMMAND_SUBMIT. -/
def CL_PROFILING_COMMAND_SUBMIT : Nat := 0x1281

/-- Profiling info enum CL_PROFILING_COMMAND_START. -/
def CL_PROFILING_COMMAND_START : Nat := 0x1282

/-- Profiling info enum CL_PROFILING_COMMAND_END. -/
def CL_PROFILING_COMMAND_END : Nat := 0x1283

/-! ## event_private: the Finish-Once Guard

`event_private` holds one atomic boolean `m_finished` and a virtual hook
`finish()` (a no-op in the base class).  `call_finish()` performs
`m_finished.exchange(true)`: if the previous value was `true` it returns
immediately, otherwise it invokes the virtual `finish()` hook.

The embedding is parametric in the external state `σ` acted on by the
concrete `finish()` hook (for the base class the hook is the identity).
`finishCount` instruments the state with the number of times the hook body
has actually run, so "exactly once" is a statement about a counter. -/

/-- State of one `event_private` payload: the `m_finished` atomic flag, an
instrumentation counter of how many times the virtual `finish()` body has
run, and the external state the hook acts on. -/
structure GuardState (σ : Type) where
  m_finished : Bool
  finishCount : Nat
  ext : σ
  deriving Repr, DecidableEq

/-- Embedding of `event_private::call_finish()`: exchange `m_finished` with
`true`; if the previous value was already `true`, return with no effect,
otherwise run the virtual `finish()` hook (here the parameter `f`) exactly
once.  The function is total: the C++ member is `noexcept` and its body
cannot fail. -/
def call_finish {σ : Type} (f : σ → σ) (s : GuardState σ) : GuardState σ :=
  if s.m_finished then s
  else { m_finished := true, finishCount := s.finishCount + 1, ext := f s.ext }

/-- Embedding of `event_private::is_finished()`: a plain read of the flag. -/
def is_finished {σ : Type} (s : GuardState σ) : Bool :=
  s.m_finished

/-- Guard state of a freshly constructed payload: flag clear, hook not yet
run. -/
def initGuard {σ : Type} (e : σ) : GuardState σ :=
  { m_finished := false, finishCount := 0, ext := e }

theorem call_finish_of_finished {σ : Type} (f : σ → σ) (s : GuardState σ)
    (h : s.m_finished = true) : call_finish f s = s := by
  simp [call_finish, h]

theorem call_finish_finished {σ : Type} (f : σ → σ) (s : GuardState σ) :
    (call_finish f s).m_finished = true := by
  unfold call_finish
  split <;> simp_all

theorem call_finish_iter_eq_one {σ : Type} (f : σ → σ) (e : σ) (n : Nat)
    (h : 1 ≤ n) :
    (call_finish f)^[n] (initGuard e) = call_finish f (initGuard e) := by
  induction n with
  | zero => omega
  | succ m ih =>
    rcases Nat.eq_or_lt_of_le h with h1 | h1
    · simp [← h1]
    · have hm : 1 ≤ m := by omega
      rw [Function.iterate_succ_apply', ih hm]
      exact call_finish_of_finished f _ (call_finish_finished f _)

/-! ## event: the Event Handle

`event` wraps one `cl_event` value (modelled as a `Nat`) and owns an optional
`event_private *m_p`.  Driver calls (`clRetainEvent`, `clWaitForEvents`,
`clSetEventCallback`) are external collaborators; each is modelled as an
oracle argument giving the status it would return (`none` = success,
`some c` = failure with status `c`). -/

/-- State of one `event` object: the wrapped `cl_event` value and the owned
payload pointer (`none` models a null `m_p`). -/
structure EventObj (σ : Type) where
  handle : Nat
  m_p : Option (GuardState σ)
  deriving Repr, DecidableEq

/-- Result of the `event` constructor: either the constructed object, or the
propagated `clerror` status code together with whether `delete m_p` ran on
the failure path. -/
inductive CtorResult (σ : Type) where
  | ok (e : EventObj σ)
  | nativeApiError (code : Int) (payloadDeleted : Bool)
  deriving Repr, DecidableEq

/-- Embedding of `event::event(cl_event, bool retain, event_private *p)`:
store the handle and the payload; if `retain`, call the guarded
`clRetainEvent` (oracle `retainResult`), and on failure delete `m_p` and
rethrow the `clerror`. -/
def event.construct {σ : Type} (h : Nat) (retain : Bool)
    (p : Option (GuardState σ)) (retainResult : Option Int) : CtorResult σ :=
  if retain then
    match retainResult with
    | none => .ok { handle := h, m_p := p }
    | some c => .nativeApiError c true
  else .ok { handle := h, m_p := p }

/-- Embedding of `event::wait()`: the guarded `clWaitForEvents` on the
singleton set of this handle (oracle `waitResult`); if it throws, the
exception propagates and nothing else runs; on return, if `m_p` is non-null,
call its `call_finish()`.  The result is the updated object. -/
def event.wait {σ : Type} (f : σ → σ) (waitResult : Option Int)
    (e : EventObj σ) : Except Int (EventObj σ) :=
  match waitResult with
  | some c => .error c
  | none =>
    match e.m_p with
    | none => .ok e
    | some p => .ok { e with m_p := some (call_finish f p) }

/-- Outcome of `event::release_private()`: which of the dispatch paths ran.
`callbackRegistered` carries the trigger status armed; `warnedLeak` carries
the driver status code printed in the warning; `threadSpawned` carries the
`cl_event` value the detached thread captured (passed by value). -/
inductive ReleaseOutcome where
  | noPayload
  | deletedSync
  | callbackRegistered (trigger : Int)
  | warnedLeak (code : Int)
  | threadSpawned (handleValue : Nat)
  deriving Repr, DecidableEq

/-- Embedding of `event::release_private()` for a build with
`PYOPENCL_CL_VERSION >= 0x1010`: return if `m_p` is null; delete the payload
synchronously if it is already finished; otherwise, if `support_cb`, register
a `CL_COMPLETE` callback (oracle `regResult`; a thrown `clerror` is caught
and reported as a warning, leaking the payload); otherwise spawn a detached
thread passing `data()` and `m_p` by value. -/
def event.release_private {σ : Type} (support_cb : Bool)
    (regResult : Option Int) (e : EventObj σ) : ReleaseOutcome :=
  match e.m_p with
  | none => .noPayload
  | some p =>
    if is_finished p then .deletedSync
    else if support_cb then
      match regResult with
      | none => .callbackRegistered CL_COMPLETE
      | some c => .warnedLeak c
    else .threadSpawned e.handle

/-- Whether a release outcome deletes the payload (now or when the armed
completion path eventually fires): `deletedSync` deletes on the destructing
thread; the callback body and the monitor-thread body each end in
`delete p`; `warnedLeak` and `noPayload` never delete. -/
def ReleaseOutcome.deletesPayload : ReleaseOutcome → Bool
  | .noPayload => false
  | .deletedSync => true
  | .callbackRegistered _ => true
  | .warnedLeak _ => false
  | .threadSpawned _ => true

/-- Whether a release outcome ever invokes the payload `call_finish()`:
only the callback body and the monitor-thread body do; the synchronous
delete of an already-finished payload does not, and the leak path runs
nothing. -/
def ReleaseOutcome.runsFinalize : ReleaseOutcome → Bool
  | .noPayload => false
  | .deletedSync => false
  | .callbackRegistered _ => true
  | .warnedLeak _ => false
  | .threadSpawned _ => true

/-- Body of the deferred completion owner armed by `release_private`: both
the registered `CL_COMPLETE` callback and the detached monitor thread (after
its blocking `clWaitForEvents` returns) run `p->call_finish(); delete p;`.
The boolean records that `delete p` ran. -/
def deferred_completion {σ : Type} (f : σ → σ) (p : GuardState σ) :
    GuardState σ × Bool :=
  (call_finish f p, true)

/-- Effects of `event::~event()`: run `release_private()` (which never
throws), then the guarded-cleanup `clReleaseEvent` on the handle (failures
swallowed).  Returned as the release outcome paired with the handle whose
native reference count is decremented. -/
def event.destructor {σ : Type} (support_cb : Bool) (regResult : Option Int)
    (e : EventObj σ) : ReleaseOutcome × Nat :=
  (event.release_private support_cb regResult e, e.handle)

/-! ## Info and profiling queries -/

/-- Shape of the value `event::get_info` returns for each recognized field,
mirroring the `pyopencl_get_opaque_info` / `pyopencl_get_int_info` call in
each switch case. -/
inductive EventInfo where
  | opaqueCommandQueue
  | intCommandType
  | intExecStatus
  | intRefCount
  | opaqueContext
  deriving Repr, DecidableEq

/-- Embedding of `event::get_info(cl_uint param_name)`: the five-way switch
(`CL_EVENT_CONTEXT` only compiled in when `v11`, i.e.
`PYOPENCL_CL_VERSION >= 0x1010`); the default case throws
`clerror("Event.get_info", CL_INVALID_VALUE)`, modelled as an error carrying
the routine name and status code. -/
def event.get_info (v11 : Bool) (param_name : Nat) :
    Except (String × Int) EventInfo :=
  if param_name = CL_EVENT_COMMAND_QUEUE then .ok .opaqueCommandQueue
  else if param_name = CL_EVENT_COMMAND_TYPE then .ok .intCommandType
  else if param_name = CL_EVENT_COMMAND_EXECUTION_STATUS then .ok .intExecStatus
  else if param_name = CL_EVENT_REFERENCE_COUNT then .ok .intRefCount
  else if v11 = true ∧ param_name = CL_EVENT_CONTEXT then .ok .opaqueContext
  else .error ("Event.get_info", CL_INVALID_VALUE)

/-- Embedding of `event::get_profiling_info(cl_profiling_info param)`: the
four timestamp cases share one `pyopencl_get_int_info(cl_ulong, ...)` call
(modelled as returning the queried field); the default case throws
`clerror("Event.get_profiling_info", CL_INVALID_VALUE)`. -/
def event.get_profiling_info (param : Nat) : Except (String × Int) Nat :=
  if param = CL_PROFILING_COMMAND_QUEUED ∨ param = CL_PROFILING_COMMAND_SUBMIT
      ∨ param = CL_PROFILING_COMMAND_START ∨ param = CL_PROFILING_COMMAND_END
  then .ok param
  else .error ("Event.get_profiling_info", CL_INVALID_VALUE)

/-- Embedding of the C wrapper `event__get_profiling_info`: `c_handle_error`
runs `*out = evt->get_profiling_info(param)`; on a thrown `clerror` the
output slot is never assigned.  Returns the error (if any) paired with the
final contents of the output slot. -/
def event__get_profiling_info (param : Nat) (out0 : Option Nat) :
    Option (String × Int) × Option Nat :=
  match event.get_profiling_info param with
  | .ok v => (none, some v)
  | .error err => (some err, out0)

/-! ## nanny_event_private and nanny_event

`nanny_event_private` derives from `event_private`, stores a `void *m_ward`,
and its constructor sets `m_ward = py::ref(ward)` (incrementing the ward
external reference count and returning the same pointer).

The class declares a private member named `finished()` whose body clears
`m_ward` and then calls `py::deref` on the saved pointer.  Because the
virtual hook in `event_private` is named `finish()`, the member `finished()`
does NOT override it: a virtual call to `finish()` on a
`nanny_event_private` dispatches to the inherited no-op
`event_private::finish()`, and no code in the file ever calls `finished()`.
The embedding therefore uses the identity hook for the virtual dispatch and
keeps the `finished()` body as a separate definition. -/

/-- External state carried by a `nanny_event_private`: the stored ward
pointer (`none` models `nullptr`; pointers are opaque `Nat` values), the
ward object external reference count, and a counter of `py::deref` calls
issued on the ward. -/
structure NannyExt where
  m_ward : Option Nat
  wardRefcount : Nat
  derefCount : Nat
  deriving Repr, DecidableEq

/-- Embedding of the `nanny_event_private::nanny_event_private(void *ward)`
constructor body, for a non-null `ward` whose external reference count is
`r`: `m_ward = py::ref(ward)` stores the pointer and increments the count.
The guard flag starts clear. -/
def nanny_event_private.construct (ward : Nat) (r : Nat) :
    GuardState NannyExt :=
  initGuard { m_ward := some ward, wardRefcount := r + 1, derefCount := 0 }

/-- Embedding of the body of the private member
`nanny_event_private::finished()`: save `m_ward`, clear it to null, then
`py::deref(ward)`.  No call site of this member exists in the file. -/
def nanny_event_private.finished_body (x : NannyExt) : NannyExt :=
  { m_ward := none, wardRefcount := x.wardRefcount - 1,
    derefCount := x.derefCount + 1 }

/-- The hook actually run by `call_finish()` on a `nanny_event_private`:
virtual dispatch of `finish()` selects the inherited
`event_private::finish()` no-op, because `finished()` has a different name
and overrides nothing. -/
def nanny_event_private.finish_hook (x : NannyExt) : NannyExt :=
  x

/-- Embedding of `nanny_event_private::get_ward()`: a plain read of
`m_ward`. -/
def nanny_event_private.get_ward (s : GuardState NannyExt) : Option Nat :=
  s.ext.m_ward

/-- Embedding of `nanny_event::nanny_event(cl_event, bool retain, void
*ward)`: with a non-null ward, construct the base `event` with a new
`nanny_event_private(ward)`; with a null ward, construct it with a null
payload.  `r` is the ward external reference count before construction. -/
def nanny_event.construct (h : Nat) (retain : Bool) (ward : Option Nat)
    (r : Nat) (retainResult : Option Int) : CtorResult NannyExt :=
  event.construct h retain
    (match ward with
     | some w => some (nanny_event_private.construct w r)
     | none => none)
    retainResult

/-- Embedding of `nanny_event::get_ward()`: null if `get_p()` is null,
otherwise the private payload ward pointer. -/
def nanny_event.get_ward (e : EventObj NannyExt) : Option Nat :=
  match e.m_p with
  | none => none
  | some p => nanny_event_private.get_ward p

/-! ## C-boundary wrappers -/

/-- State of the opaque Python callback token passed to
`event__set_callback`: its external reference count, the number of
`py::deref` calls issued on it, and the number of times `py::call` ran it. -/
structure TokenState where
  tokenRefs : Nat
  derefCount : Nat
  callCount : Nat
  deriving Repr, DecidableEq

/-- Outcome of `event__set_callback`: either the wrapped callback is now
registered with the driver (holding the token reference), or registration
threw and the catch-all released the token reference immediately. -/
inductive SetCallbackOutcome where
  | registered
  | failedReleased
  deriving Repr, DecidableEq

/-- Embedding of the C wrapper `event__set_callback(evt, type, pyobj)` body:
first `pyobj = py::ref(pyobj)` takes an external reference on the token,
then `evt->set_callback(type, ...)` is attempted (oracle `regFails`); on a
thrown exception the catch-all runs `py::deref(pyobj)`. -/
def event__set_callback (regFails : Bool) (s : TokenState) :
    SetCallbackOutcome × TokenState :=
  let s1 : TokenState := { s with tokenRefs := s.tokenRefs + 1 }
  if regFails then
    (.failedReleased,
     { s1 with tokenRefs := s1.tokenRefs - 1, derefCount := s1.derefCount + 1 })
  else (.registered, s1)

/-- Embedding of the lambda registered by `event__set_callback`, run by the
driver when the event reaches the trigger status: `py::call(pyobj, status)`
then `py::deref(pyobj)`. -/
def set_callback_run (s : TokenState) : TokenState :=
  { tokenRefs := s.tokenRefs - 1, derefCount := s.derefCount + 1,
    callCount := s.callCount + 1 }

/-- Modelled from the spec: the guarded native blocking-wait call
`pyopencl_call_guarded(clWaitForEvents, wait_for)` made by the C wrapper
`wait_for_events`.  The implementations of `pyopencl_call_guarded` and of
the driver `clWaitForEvents` are not under `src/`; the spec states that
waiting on zero events "must return immediately with success (no driver
call with zero elements should hang or fail)", so the model succeeds on an
empty buffer and otherwise returns the driver oracle status. -/
def guardedWaitForEvents (oracle : Option Int) (evts : List Nat) :
    Except (String × Int) Unit :=
  if evts.isEmpty then .ok ()
  else
    match oracle with
    | none => .ok ()
    | some c => .error ("clWaitForEvents", c)

/-- Embedding of the C wrapper `wait_for_events(wait_for, num_wait_for)`:
build the event buffer and run the guarded `clWaitForEvents` under
`c_handle_error`, which converts a success into a null error pointer and a
thrown `clerror` into an error value. -/
def wait_for_events (oracle : Option Int) (evts : List Nat) :
    Option (String × Int) :=
  match guardedWaitForEvents oracle evts with
  | .ok () => none
  | .error err => some err

/-- Success test for an `Except` result. -/
def isSuccess {ε α : Type} : Except ε α → Bool
  | .ok _ => true
  | .error _ => false

/-- Number of `delete` operations a release outcome issues on the payload
over the whole lifetime of the dispatch path it chose. -/
def ReleaseOutcome.deleteCount : ReleaseOutcome → Nat
  | .noPayload => 0
  | .deletedSync => 1
  | .callbackRegistered _ => 1
  | .warnedLeak _ => 0
  | .threadSpawned _ => 1

/-! ## Claim theorems -/

/-- Claim C1: for every Finalize Payload and every sequence of `n ≥ 1`
invocations of `call_finish()` (starting from the freshly constructed
payload), the `finish()` hook body executes exactly once (the
instrumentation counter is 1), `is_finished()` observed after any
`call_finish()` has returned is true, and every call after the first
returns immediately without invoking `finish()` (the state after `n` calls
equals the state after the first call).  `call_finish` is a total function,
matching the noexcept member that never fails. -/
theorem C1_call_finish_once {σ : Type} (f : σ → σ) (e : σ) (n : Nat)
    (h : 1 ≤ n) :
    ((call_finish f)^[n] (initGuard e)).finishCount = 1 ∧
    is_finished ((call_finish f)^[n] (initGuard e)) = true ∧
    (call_finish f)^[n] (initGuard e) = call_finish f (initGuard e) := by
  have key := call_finish_iter_eq_one f e n h
  refine ⟨?_, ?_, key⟩ <;> rw [key] <;>
    simp [call_finish, initGuard, is_finished]

/-- Witness for C1 at `n = 3` with the successor hook on `Nat`. -/
theorem C1_call_finish_once_witness :
    1 ≤ 3 ∧
    (((call_finish Nat.succ)^[3] (initGuard 0)).finishCount = 1 ∧
     is_finished ((call_finish Nat.succ)^[3] (initGuard 0)) = true ∧
     (call_finish Nat.succ)^[3] (initGuard 0) =
       call_finish Nat.succ (initGuard 0)) :=
  ⟨by decide, C1_call_finish_once Nat.succ 0 3 (by decide)⟩

/-- Claim C2, code behavior at the failing input: a nanny payload is
constructed with ward pointer 5 at external refcount 1 (so the count is
bumped to 2), and then its `call_finish()` runs.  Because the member that
was meant to override the virtual hook is named `finished()` rather than
`finish()`, the virtual dispatch selects the inherited no-op: afterwards the
payload is finished, yet `get_ward()` still returns the ward, the ward
refcount is still 2, and no `py::deref` has run — contradicting the claim.
The orphaned `finished()` body (which no code calls) is exactly the clear-
then-deref step the claim describes. -/
theorem C2_nanny_ward_leak :
    is_finished (call_finish nanny_event_private.finish_hook
        (nanny_event_private.construct 5 1)) = true ∧
    nanny_event_private.get_ward (call_finish nanny_event_private.finish_hook
        (nanny_event_private.construct 5 1)) = some 5 ∧
    (call_finish nanny_event_private.finish_hook
        (nanny_event_private.construct 5 1)).ext.wardRefcount = 2 ∧
    (call_finish nanny_event_private.finish_hook
        (nanny_event_private.construct 5 1)).ext.derefCount = 0 ∧
    nanny_event_private.finished_body
        (nanny_event_private.construct 5 1).ext =
      { m_ward := none, wardRefcount := 1, derefCount := 1 } := by
  decide

/-- Claim C3: a call to `event::wait()` that returns normally has seen the
native wait succeed, and (when a payload is present) has synchronously run
the payload one-shot finalize: the returned object carries
`call_finish f p`, whose finished flag is true.  The handle is unchanged. -/
theorem C3_wait_runs_finalize {σ : Type} (f : σ → σ)
    (waitResult : Option Int) (e e' : EventObj σ) (p : GuardState σ)
    (hp : e.m_p = some p) (h : event.wait f waitResult e = .ok e') :
    waitResult = none ∧
    e' = { e with m_p := some (call_finish f p) } ∧
    is_finished (call_finish f p) = true := by
  cases waitResult with
  | some c => simp [event.wait] at h
  | none =>
    refine ⟨rfl, ?_, call_finish_finished f p⟩
    simp [event.wait, hp] at h
    exact h.symm

/-- Witness for C3: an event with a fresh payload, successful native wait. -/
theorem C3_wait_runs_finalize_witness :
    (EventObj.mk 7 (some (initGuard 0))).m_p = some (initGuard 0) ∧
    event.wait Nat.succ none (EventObj.mk 7 (some (initGuard 0))) =
      .ok (EventObj.mk 7 (some (call_finish Nat.succ (initGuard 0)))) ∧
    (none = (none : Option Int) ∧
     EventObj.mk 7 (some (call_finish Nat.succ (initGuard 0))) =
       { EventObj.mk 7 (some (initGuard 0)) with
         m_p := some (call_finish Nat.succ (initGuard 0)) } ∧
     is_finished (call_finish Nat.succ (initGuard 0)) = true) :=
  ⟨rfl, rfl,
   C3_wait_runs_finalize Nat.succ none (EventObj.mk 7 (some (initGuard 0)))
     (EventObj.mk 7 (some (call_finish Nat.succ (initGuard 0))))
     (initGuard 0) rfl rfl⟩

/-- Claim C4: the release-time dispatch for an event with a payload.  If
the payload is already finished it is deleted synchronously; otherwise with
native-callback support and successful registration a `CL_COMPLETE` callback
takes ownership; otherwise a detached thread is spawned carrying the handle
value captured at release time (by value).  The deferred owner body runs the
one-shot finalize and then deletes the payload, and no outcome deletes the
payload more than once. -/
theorem C4_release_dispatch {σ : Type} (f : σ → σ) (support_cb : Bool)
    (regResult : Option Int) (e : EventObj σ) (p : GuardState σ)
    (hp : e.m_p = some p) :
    (is_finished p = true →
       event.release_private support_cb regResult e = .deletedSync) ∧
    (is_finished p = false → support_cb = true → regResult = none →
       event.release_private support_cb regResult e =
         .callbackRegistered CL_COMPLETE) ∧
    (is_finished p = false → support_cb = false →
       event.release_private support_cb regResult e =
         .threadSpawned e.handle) ∧
    is_finished (deferred_completion f p).1 = true ∧
    (deferred_completion f p).2 = true ∧
    (event.release_private support_cb regResult e).deleteCount ≤ 1 := by
  refine ⟨?_, ?_, ?_, call_finish_finished f p, rfl, ?_⟩
  · intro hfin
    simp [event.release_private, hp, hfin]
  · intro hfin hcb hreg
    simp [event.release_private, hp, hfin, hcb, hreg]
  · intro hfin hcb
    simp [event.release_private, hp, hfin, hcb]
  · cases hout : event.release_private support_cb regResult e <;>
      simp [ReleaseOutcome.deleteCount]

/-- Witness for C4: a fresh unfinished payload, callbacks supported,
registration succeeding. -/
theorem C4_release_dispatch_witness :
    (EventObj.mk 7 (some (initGuard 0))).m_p = some (initGuard 0) ∧
    ((is_finished (initGuard 0) = true →
        event.release_private true none (EventObj.mk 7 (some (initGuard 0))) =
          .deletedSync) ∧
     (is_finished (initGuard 0) = false → true = true → (none : Option Int) = none →
        event.release_private true none (EventObj.mk 7 (some (initGuard 0))) =
          .callbackRegistered CL_COMPLETE) ∧
     (is_finished (initGuard 0) = false → true = false →
        event.release_private true none (EventObj.mk 7 (some (initGuard 0))) =
          .threadSpawned (EventObj.mk 7 (some (initGuard 0))).handle) ∧
     is_finished (deferred_completion Nat.succ (initGuard 0)).1 = true ∧
     (deferred_completion Nat.succ (initGuard 0)).2 = true ∧
     (event.release_private true none
        (EventObj.mk 7 (some (initGuard 0)))).deleteCount ≤ 1) :=
  ⟨rfl, C4_release_dispatch Nat.succ true none
    (EventObj.mk 7 (some (initGuard 0))) (initGuard 0) rfl⟩

/-- Claim C5: constructing an event with `retain = true` against a native
handle whose `clRetainEvent` fails with status `c` deletes the supplied
payload and propagates a `NativeApiError` carrying `c`. -/
theorem C5_ctor_failure_deletes_payload {σ : Type} (h : Nat)
    (p : Option (GuardState σ)) (c : Int) :
    event.construct h true p (some c) = .nativeApiError c true := by
  rfl

/-- Claim C6: `get_info` (in an OpenCL ≥ 1.1 build) succeeds exactly on the
five recognized fields and `get_profiling_info` exactly on the four
timestamp fields; on any other field value each fails with
`CL_INVALID_VALUE` and the C wrapper leaves the output slot untouched (no
partial output). -/
theorem C6_info_fields (param : Nat) (out0 : Option Nat) :
    (isSuccess (event.get_info true param) = true ↔
       param ∈ [CL_EVENT_COMMAND_QUEUE, CL_EVENT_COMMAND_TYPE,
                CL_EVENT_COMMAND_EXECUTION_STATUS, CL_EVENT_REFERENCE_COUNT,
                CL_EVENT_CONTEXT]) ∧
    (param ∉ [CL_EVENT_COMMAND_QUEUE, CL_EVENT_COMMAND_TYPE,
              CL_EVENT_COMMAND_EXECUTION_STATUS, CL_EVENT_REFERENCE_COUNT,
              CL_EVENT_CONTEXT] →
       event.get_info true param = .error ("Event.get_info", CL_INVALID_VALUE)) ∧
    (isSuccess (event.get_profiling_info param) = true ↔
       param ∈ [CL_PROFILING_COMMAND_QUEUED, CL_PROFILING_COMMAND_SUBMIT,
                CL_PROFILING_COMMAND_START, CL_PROFILING_COMMAND_END]) ∧
    (param ∉ [CL_PROFILING_COMMAND_QUEUED, CL_PROFILING_COMMAND_SUBMIT,
              CL_PROFILING_COMMAND_START, CL_PROFILING_COMMAND_END] →
       event__get_profiling_info param out0 =
         (some ("Event.get_profiling_info", CL_INVALID_VALUE), out0)) := by
  refine ⟨?_, ?_, ?_, ?_⟩
  · unfold event.get_info
    split_ifs with h1 h2 h3 h4 h5 <;>
      simp_all [isSuccess, List.mem_cons]
  · intro hmem
    simp only [List.mem_cons, List.not_mem_nil, or_false, not_or] at hmem
    unfold event.get_info
    split_ifs with h1 h2 h3 h4 h5 <;> tauto
  · unfold event.get_profiling_info
    split_ifs with h1 <;> simp_all [isSuccess, List.mem_cons]
  · intro hmem
    simp only [List.mem_cons, List.not_mem_nil, or_false, not_or] at hmem
    unfold event__get_profiling_info event.get_profiling_info
    split_ifs with h1 <;> tauto

/-- Witness for C6 at the out-of-enum field value 0 with an empty output
slot. -/
theorem C6_info_fields_witness :
    (isSuccess (event.get_info true 0) = true ↔
       0 ∈ [CL_EVENT_COMMAND_QUEUE, CL_EVENT_COMMAND_TYPE,
            CL_EVENT_COMMAND_EXECUTION_STATUS, CL_EVENT_REFERENCE_COUNT,
            CL_EVENT_CONTEXT]) ∧
    (0 ∉ [CL_EVENT_COMMAND_QUEUE, CL_EVENT_COMMAND_TYPE,
          CL_EVENT_COMMAND_EXECUTION_STATUS, CL_EVENT_REFERENCE_COUNT,
          CL_EVENT_CONTEXT] →
       event.get_info true 0 = .error ("Event.get_info", CL_INVALID_VALUE)) ∧
    (isSuccess (event.get_profiling_info 0) = true ↔
       0 ∈ [CL_PROFILING_COMMAND_QUEUED, CL_PROFILING_COMMAND_SUBMIT,
            CL_PROFILING_COMMAND_START, CL_PROFILING_COMMAND_END]) ∧
    (0 ∉ [CL_PROFILING_COMMAND_QUEUED, CL_PROFILING_COMMAND_SUBMIT,
          CL_PROFILING_COMMAND_START, CL_PROFILING_COMMAND_END] →
       event__get_profiling_info 0 none =
         (some ("Event.get_profiling_info", CL_INVALID_VALUE), none)) :=
  C6_info_fields 0 none

/-- Claim C7: when the payload is present and unfinished, callbacks are
supported, and the `set_callback` registration throws a `clerror` with
status `c`, release catches it (the destructor still completes and releases
the native handle), the outcome is the warning path carrying the driver
status code `c`, and the payload is neither run nor deleted. -/
theorem C7_registration_failure_leaks {σ : Type} (c : Int)
    (e : EventObj σ) (p : GuardState σ) (hp : e.m_p = some p)
    (hf : is_finished p = false) :
    event.release_private true (some c) e = .warnedLeak c ∧
    event.destructor true (some c) e = (.warnedLeak c, e.handle) ∧
    (ReleaseOutcome.warnedLeak c).deletesPayload = false ∧
    (ReleaseOutcome.warnedLeak c).runsFinalize = false := by
  have h1 : event.release_private true (some c) e = .warnedLeak c := by
    simp [event.release_private, hp, hf]
  refine ⟨h1, ?_, rfl, rfl⟩
  simp [event.destructor, h1]

/-- Witness for C7: a fresh unfinished payload, registration failing with
status -58 (CL_INVALID_EVENT). -/
theorem C7_registration_failure_leaks_witness :
    (EventObj.mk 7 (some (initGuard 0))).m_p = some (initGuard 0) ∧
    is_finished (initGuard (0 : Nat)) = false ∧
    (event.release_private true (some (-58)) (EventObj.mk 7 (some (initGuard 0))) =
       .warnedLeak (-58) ∧
     event.destructor true (some (-58)) (EventObj.mk 7 (some (initGuard 0))) =
       (.warnedLeak (-58), (EventObj.mk 7 (some (initGuard 0))).handle) ∧
     (ReleaseOutcome.warnedLeak (-58)).deletesPayload = false ∧
     (ReleaseOutcome.warnedLeak (-58)).runsFinalize = false) :=
  ⟨rfl, rfl,
   C7_registration_failure_leaks (-58) (EventObj.mk 7 (some (initGuard 0)))
     (initGuard 0) rfl rfl⟩

/-- Claim C8: `wait_for_events` on an empty set of handles returns a null
error (success) for every driver oracle, immediately. -/
theorem C8_wait_for_events_empty (oracle : Option Int) :
    wait_for_events oracle [] = none := by
  rfl

/-- Claim C9: `event__set_callback` takes an external reference on the
token before registration.  On registration failure the catch-all releases
it exactly once immediately (net reference count unchanged, one more
`py::deref`); on success the reference is held (count up by one, no deref),
and when the registered callback later runs it calls the token and then
releases the reference exactly once (count back to the original, exactly
one more deref). -/
theorem C9_callback_token_refcount (s : TokenState) :
    event__set_callback true s =
      (.failedReleased, { s with derefCount := s.derefCount + 1 }) ∧
    event__set_callback false s =
      (.registered, { s with tokenRefs := s.tokenRefs + 1 }) ∧
    set_callback_run (event__set_callback false s).2 =
      { tokenRefs := s.tokenRefs, derefCount := s.derefCount + 1,
        callCount := s.callCount + 1 } := by
  refine ⟨?_, rfl, ?_⟩ <;> simp [event__set_callback, set_callback_run]

/-- Claim C10: destroying an event whose payload pointer is null performs
no payload dispatch at all (no delete, no callback registration, no monitor
thread), and the destructor only releases the native handle reference. -/
theorem C10_null_payload_frame {σ : Type} (support_cb : Bool)
    (regResult : Option Int) (e : EventObj σ) (hp : e.m_p = none) :
    event.release_private support_cb regResult e = .noPayload ∧
    ReleaseOutcome.noPayload.deletesPayload = false ∧
    ReleaseOutcome.noPayload.runsFinalize = false ∧
    ReleaseOutcome.noPayload.deleteCount = 0 ∧
    event.destructor support_cb regResult e = (.noPayload, e.handle) := by
  have h1 : event.release_private support_cb regResult e = .noPayload := by
    simp [event.release_private, hp]
  exact ⟨h1, rfl, rfl, rfl, by simp [event.destructor, h1]⟩

/-- Witness for C10: a payload-free event, callbacks supported. -/
theorem C10_null_payload_frame_witness :
    (EventObj.mk 9 (none : Option (GuardState Nat))).m_p = none ∧
    (event.release_private true none (EventObj.mk 9 (none : Option (GuardState Nat))) =
       .noPayload ∧
     ReleaseOutcome.noPayload.deletesPayload = false ∧
     ReleaseOutcome.noPayload.runsFinalize = false ∧
     ReleaseOutcome.noPayload.deleteCount = 0 ∧
     event.destructor true none (EventObj.mk 9 (none : Option (GuardState Nat))) =
       (.noPayload, (EventObj.mk 9 (none : Option (GuardState Nat))).handle)) :=
  ⟨rfl, C10_null_payload_frame true none
    (EventObj.mk 9 (none : Option (GuardState Nat))) rfl⟩

end PyOpenCL
